import Mathlib

/-!
# Verification of `data_reconstruction` (PCA_visualization)

Shallow embedding of the generator `data_reconstruction` from the notebook
`MNIST visualization-checkpoint.ipynb`:

```python
def data_reconstruction(data,principal_components,by_n=1):
    n,c=data.shape
    C,N=principal_components.shape
    M=c//by_n
    assert C==c
    L=np.empty((n,N))
    m=0
    while m+by_n<c:
        iteration=m
        A=data[:,m:m+by_n]
        B=principal_components[m:m+by_n,:]
        L+=np.dot(data[:,m:m+by_n],principal_components[m:m+by_n,:])
        m+=by_n
        yield L,iteration
    yield L+np.dot(data[:,m:c],principal_components[m:c,:]),m
```

Modelling choices:
* numpy 2-D float arrays become `Mat`: explicit row/column counts plus a total
  entry function into `ℚ` (exact arithmetic models the float computation).
* `np.empty((n,N))` allocates an *uninitialized* array, so the initial
  accumulator contents are an arbitrary matrix `L0`, passed explicitly.
* Python slice bounds (including negative indices, which occur when `by_n`
  is negative) are resolved by `pyIdx`, following Python semantics.
* Calling a Python generator function runs none of its body; the call merely
  packages the arguments (`Gen`).  Requesting elements (`Gen.run`) runs the
  body: first `c//by_n` (ZeroDivisionError when `by_n = 0`), then
  `assert C==c` (AssertionError on shape mismatch), then the loop.  `fuel`
  bounds the number of `while`-loop iterations driven by the consumer; the
  returned `Bool` records whether the generator became exhausted within it.
* The `while`-loop `yield L,iteration` yields the accumulator object itself
  (mutated in place by `+=` afterwards), while the final
  `yield L+np.dot(...),m` yields a fresh array; a `Yield` records the value
  at yield time (`snap`), whether the yielded object is the live accumulator
  buffer (`live`), and the yielded integer (`idx`).
-/

namespace PCAVis

/-- A 2-D numpy array over exact scalars: explicit shape and a total entry
function, meaningful on `i < rows`, `j < cols`. -/
structure Mat where
  rows : Nat
  cols : Nat
  entry : Nat → Nat → ℚ

/-- Build a matrix from a list of rows (missing entries read as 0). -/
def Mat.of (l : List (List ℚ)) : Mat :=
  ⟨l.length, (l.headD []).length, fun i j => ((l.getD i []).getD j 0)⟩

/-- The all-zeros matrix, `np.zeros((r, c))`. -/
def Mat.zeros (r c : Nat) : Mat := ⟨r, c, fun _ _ => 0⟩

/-- Extensional equality of matrices: same shape and same entries at every
in-range position. -/
def Mat.Eq (A B : Mat) : Prop :=
  A.rows = B.rows ∧ A.cols = B.cols ∧
    ∀ i < A.rows, ∀ j < A.cols, A.entry i j = B.entry i j

instance (A B : Mat) : Decidable (A.Eq B) := by
  unfold Mat.Eq; infer_instance

/-- Resolve a Python slice bound `i` against an axis of length `len`:
negative indices count from the end, and bounds are clamped to `[0, len]`. -/
def pyIdx (i : Int) (len : Nat) : Nat :=
  if i < 0 then ((len : Int) + i).toNat else min i.toNat len

/-- `A[:, a:b]` — the column slice of `A` with Python slice bounds. -/
def colSlice (A : Mat) (a b : Int) : Mat :=
  ⟨A.rows, pyIdx b A.cols - pyIdx a A.cols,
    fun i j => A.entry i (pyIdx a A.cols + j)⟩

/-- `A[a:b, :]` — the row slice of `A` with Python slice bounds. -/
def rowSlice (A : Mat) (a b : Int) : Mat :=
  ⟨pyIdx b A.rows - pyIdx a A.rows, A.cols,
    fun i j => A.entry (pyIdx a A.rows + i) j⟩

/-- `∑_{k < n} f k`, the inner-product summation of `np.dot`. -/
def rsum (f : Nat → ℚ) : Nat → ℚ
  | 0 => 0
  | n + 1 => rsum f n + f n

/-- `np.dot(A, B)` (shapes agree in every reachable call of the source). -/
def Mat.dot (A B : Mat) : Mat :=
  ⟨A.rows, B.cols, fun i j => rsum (fun k => A.entry i k * B.entry k j) A.cols⟩

/-- Entrywise addition `A + B` (numpy `+=` keeps the left operand's shape). -/
def Mat.add (A B : Mat) : Mat :=
  ⟨A.rows, A.cols, fun i j => A.entry i j + B.entry i j⟩

/-- One element produced by the generator: the yielded matrix's value at the
moment of the yield (`snap`), whether the yielded object is the generator's
live accumulator buffer `L` (`live`; true for the in-loop `yield L,iteration`,
false for the final yield, which builds a fresh array), and the integer
yielded with it (`idx`). -/
structure Yield where
  snap : Mat
  live : Bool
  idx : Int

/-- The `while` loop of `data_reconstruction`, from state `(L, m)`.  Each
driven iteration consumes one unit of `fuel`; when the guard `m+by_n < c`
fails the final `yield` is produced and the generator is exhausted (`true`).
`false` means the consumer stopped requesting before exhaustion. -/
def reconLoop (data pcs : Mat) (by_n : Int) :
    Nat → Mat → Int → List Yield × Bool
  | 0, _, _ => ([], false)
  | fuel + 1, L, m =>
    if m + by_n < (data.cols : Int) then
      let L' := L.add ((colSlice data m (m + by_n)).dot
        (rowSlice pcs m (m + by_n)))
      let r := reconLoop data pcs by_n fuel L' (m + by_n)
      (⟨L', true, m⟩ :: r.1, r.2)
    else
      ([⟨L.add ((colSlice data m (data.cols : Int)).dot
          (rowSlice pcs m (data.cols : Int))), false, m⟩], true)

/-- The value of the call `data_reconstruction(data, principal_components,
by_n)`: in Python this runs none of the body — it only packages the
arguments into a generator object. -/
structure Gen where
  data : Mat
  principal_components : Mat
  by_n : Int

/-- The call itself: total, never raises. -/
def data_reconstruction (data principal_components : Mat) (by_n : Int) : Gen :=
  ⟨data, principal_components, by_n⟩

/-- Errors the generator body can raise when its first element is
requested. -/
inductive PyError where
  | zeroDivisionError
  | assertionError
deriving DecidableEq

/-- Driving the generator: the body runs only now.  In source order:
`M = c//by_n` (ZeroDivisionError when `by_n = 0`), then `assert C == c`
(AssertionError on mismatch), then the loop.  `L0` is the arbitrary content
of the uninitialized `np.empty((n,N))` accumulator. -/
def Gen.run (g : Gen) (L0 : Mat) (fuel : Nat) :
    Except PyError (List Yield × Bool) :=
  if g.by_n = 0 then .error .zeroDivisionError
  else if g.principal_components.rows = g.data.cols then
    .ok (reconLoop g.data g.principal_components g.by_n fuel L0 0)
  else .error .assertionError

/-- Yields produced (empty when an error was raised). -/
def runYields (g : Gen) (L0 : Mat) (fuel : Nat) : List Yield :=
  match g.run L0 fuel with
  | .ok p => p.1
  | .error _ => []

/-- Whether the generator became exhausted within `fuel` requests. -/
def runFinished (g : Gen) (L0 : Mat) (fuel : Nat) : Bool :=
  match g.run L0 fuel with
  | .ok p => p.2
  | .error _ => true

/-- The error raised at the first element request, if any. -/
def runError (g : Gen) (L0 : Mat) (fuel : Nat) : Option PyError :=
  match g.run L0 fuel with
  | .ok _ => none
  | .error e => some e

/-- Placeholder yield for out-of-range list reads. -/
def dummyYield : Yield := ⟨Mat.zeros 0 0, false, 0⟩

/-- Closed form of the yields the loop produces from state `(L, m)` when the
block size `b` is positive and shapes match: `⌈(c-m)/b⌉` elements, where the
`k`-th (0-based) snapshot is `L` plus the running sum through column
`min (m+(k+1)·b) c`, its index is `m + k·b`, and every element but the last
is the live accumulator buffer. -/
def expectedYields (data pcs : Mat) (b : Nat) (L : Mat) (m : Nat) : List Yield :=
  (List.range ((data.cols - m + b - 1) / b)).map fun k =>
    { snap := ⟨L.rows, L.cols, fun i j =>
        L.entry i j + rsum (fun u => data.entry i (m + u) * pcs.entry (m + u) j)
          (min ((k + 1) * b) (data.cols - m))⟩,
      live := decide (k + 1 < (data.cols - m + b - 1) / b),
      idx := (m : Int) + (k : Int) * (b : Int) }

/-- Contents of the generator's single mutable accumulator array after the
first `j+1` yields have been produced.  Each in-loop yield (`live = true`)
returns the accumulator object itself, whose contents at that moment are the
yield's snapshot value; the final yield builds a fresh array and leaves the
accumulator untouched.  Before any live yield the contents are the
uninitialized `L0`. -/
def bufferAfter (L0 : Mat) (ys : List Yield) (j : Nat) : Mat :=
  (ys.take (j + 1)).foldl (fun buf y => if y.live then y.snap else buf) L0

/-- The matrix a caller observes, once `j+1` yields have been produced, when
reading the object that was yielded `i`-th: a live yield aliases the
accumulator buffer, a non-live yield is an independent array frozen at its
snapshot value. -/
def observedAt (L0 : Mat) (ys : List Yield) (i j : Nat) : Mat :=
  if (ys.getD i dummyYield).live then bufferAfter L0 ys j
  else (ys.getD i dummyYield).snap

theorem Mat.ext {A B : Mat} (hr : A.rows = B.rows) (hc : A.cols = B.cols)
    (he : A.entry = B.entry) : A = B := by
  cases A; cases B; simp_all

theorem pyIdx_natCast (a len : Nat) : pyIdx (a : Int) len = min a len := by
  simp [pyIdx]

theorem colSlice_cols (A : Mat) (a t : Nat) (ha : a ≤ A.cols) (ht : t ≤ A.cols) :
    (colSlice A (a : Int) (t : Int)).cols = t - a := by
  simp [colSlice, pyIdx_natCast, Nat.min_eq_left ha, Nat.min_eq_left ht]

theorem colSlice_entry (A : Mat) (a t : Nat) (ha : a ≤ A.cols) (i j : Nat) :
    (colSlice A (a : Int) (t : Int)).entry i j = A.entry i (a + j) := by
  simp [colSlice, pyIdx_natCast, Nat.min_eq_left ha]

theorem rowSlice_cols (A : Mat) (a t : Int) : (rowSlice A a t).cols = A.cols := rfl

theorem rowSlice_entry (A : Mat) (a t : Nat) (ha : a ≤ A.rows) (i j : Nat) :
    (rowSlice A (a : Int) (t : Int)).entry i j = A.entry (a + i) j := by
  simp [rowSlice, pyIdx_natCast, Nat.min_eq_left ha]

theorem rsum_congr {f g : Nat → ℚ} : ∀ {n : Nat}, (∀ u < n, f u = g u) →
    rsum f n = rsum g n
  | 0, _ => rfl
  | n + 1, h => by
    simp only [rsum]
    rw [rsum_congr (fun u hu => h u (Nat.lt_succ_of_lt hu)), h n (Nat.lt_succ_self n)]

theorem rsum_split (f : Nat → ℚ) (x : Nat) :
    ∀ y : Nat, rsum f (x + y) = rsum f x + rsum (fun u => f (x + u)) y
  | 0 => by simp [rsum]
  | y + 1 => by
    rw [(Nat.add_assoc x y 1).symm,
      show rsum f (x + y + 1) = rsum f (x + y) + f (x + y) from rfl,
      rsum_split f x y,
      show rsum (fun u => f (x + u)) (y + 1) =
        rsum (fun u => f (x + u)) y + f (x + y) from rfl]
    ring

/-- Entries of the block product
`np.dot(data[:, a:t], principal_components[a:t, :])`. -/
theorem blockDot_entry (data pcs : Mat) (hC : pcs.rows = data.cols)
    (a t : Nat) (ha : a ≤ data.cols) (ht : t ≤ data.cols) (i j : Nat) :
    ((colSlice data (a : Int) (t : Int)).dot
        (rowSlice pcs (a : Int) (t : Int))).entry i j =
      rsum (fun u => data.entry i (a + u) * pcs.entry (a + u) j) (t - a) := by
  simp only [Mat.dot, colSlice_cols data a t ha ht]
  exact rsum_congr fun u _ => by
    rw [colSlice_entry data a t ha, rowSlice_entry pcs a t (hC ▸ ha)]

theorem blockDot_rows (data pcs : Mat) (a t : Int) :
    ((colSlice data a t).dot (rowSlice pcs a t)).rows = data.rows := rfl

theorem blockDot_cols (data pcs : Mat) (a t : Int) :
    ((colSlice data a t).dot (rowSlice pcs a t)).cols = pcs.cols := rfl

theorem expectedYields_length (data pcs : Mat) (b : Nat) (L : Mat) (m : Nat) :
    (expectedYields data pcs b L m).length = (data.cols - m + b - 1) / b := by
  simp [expectedYields]

theorem expectedYields_base (data pcs : Mat) (b : Nat) (L : Mat) (m : Nat)
    (hb : 1 ≤ b) (hm : m < data.cols) (hmb : data.cols ≤ m + b)
    (hC : pcs.rows = data.cols) :
    expectedYields data pcs b L m =
      [⟨L.add ((colSlice data (m : Int) (data.cols : Int)).dot
          (rowSlice pcs (m : Int) (data.cols : Int))), false, (m : Int)⟩] := by
  have hlen : (data.cols - m + b - 1) / b = 1 := by
    have h1 : 1 ≤ (data.cols - m + b - 1) / b :=
      (Nat.one_le_div_iff (by omega)).mpr (by omega)
    have h2 : (data.cols - m + b - 1) / b < 2 :=
      Nat.div_lt_iff_lt_mul (by omega) |>.mpr (by omega)
    omega
  unfold expectedYields
  rw [hlen, show List.range 1 = [0] from rfl]
  simp only [List.map_cons, List.map_nil]
  refine congrArg (· :: []) ?_
  simp only [Yield.mk.injEq]
  refine ⟨?_, by simp, by simp⟩
  refine Mat.ext rfl rfl ?_
  funext i j
  rw [show ((L.add ((colSlice data (m : Int) (data.cols : Int)).dot
      (rowSlice pcs (m : Int) (data.cols : Int)))).entry i j =
      L.entry i j + ((colSlice data (m : Int) (data.cols : Int)).dot
        (rowSlice pcs (m : Int) (data.cols : Int))).entry i j) from rfl,
    blockDot_entry data pcs hC m data.cols (Nat.le_of_lt hm) (Nat.le_refl _)]
  rw [show min ((0 + 1) * b) (data.cols - m) = data.cols - m by omega]

theorem expectedYields_cons (data pcs : Mat) (b : Nat) (L : Mat) (m : Nat)
    (hb : 1 ≤ b) (hmb : m + b < data.cols) (hC : pcs.rows = data.cols) :
    expectedYields data pcs b L m =
      ⟨L.add ((colSlice data (m : Int) ((m + b : Nat) : Int)).dot
          (rowSlice pcs (m : Int) ((m + b : Nat) : Int))), true, (m : Int)⟩ ::
        expectedYields data pcs b
          (L.add ((colSlice data (m : Int) ((m + b : Nat) : Int)).dot
            (rowSlice pcs (m : Int) ((m + b : Nat) : Int)))) (m + b) := by
  have hb0 : 0 < b := hb
  have hlen : (data.cols - m + b - 1) / b =
      (data.cols - (m + b) + b - 1) / b + 1 := by
    rw [show data.cols - m + b - 1 = (data.cols - (m + b) + b - 1) + b by omega,
      Nat.add_div_right _ hb0]
  have hlen' : 1 ≤ (data.cols - (m + b) + b - 1) / b :=
    (Nat.one_le_div_iff hb0).mpr (by omega)
  have hBlock : ∀ i j, ((colSlice data (m : Int) ((m + b : Nat) : Int)).dot
      (rowSlice pcs (m : Int) ((m + b : Nat) : Int))).entry i j =
      rsum (fun u => data.entry i (m + u) * pcs.entry (m + u) j) b := by
    intro i j
    rw [blockDot_entry data pcs hC m (m + b) (by omega) (by omega)]
    rw [show m + b - m = b by omega]
  unfold expectedYields
  rw [hlen, List.range_succ_eq_map, List.map_cons, List.map_map]
  refine congrArg₂ (· :: ·) ?_ ?_
  · simp only [Yield.mk.injEq]
    refine ⟨?_, ?_, by simp⟩
    · refine Mat.ext rfl rfl ?_
      funext i j
      rw [show ((L.add ((colSlice data (m : Int) ((m + b : Nat) : Int)).dot
          (rowSlice pcs (m : Int) ((m + b : Nat) : Int)))).entry i j =
          L.entry i j + ((colSlice data (m : Int) ((m + b : Nat) : Int)).dot
            (rowSlice pcs (m : Int) ((m + b : Nat) : Int))).entry i j) from rfl,
        hBlock i j, show min ((0 + 1) * b) (data.cols - m) = b by omega]
    · simp only [decide_eq_true_eq]
      omega
  · refine List.map_congr_left ?_
    intro k _
    simp only [Function.comp, Yield.mk.injEq]
    refine ⟨?_, ?_, ?_⟩
    · refine Mat.ext rfl rfl ?_
      funext i j
      have hmin : min ((Nat.succ k + 1) * b) (data.cols - m) =
          b + min ((k + 1) * b) (data.cols - (m + b)) := by
        rw [show (Nat.succ k + 1) * b = b + (k + 1) * b by
            rw [Nat.succ_eq_add_one]; ring,
          show data.cols - m = b + (data.cols - (m + b)) by omega,
          min_add_add_left]
      dsimp only [Mat.add]
      rw [hmin, rsum_split, hBlock i j]
      rw [show (fun u => data.entry i (m + (b + u)) * pcs.entry (m + (b + u)) j) =
          (fun u => data.entry i (m + b + u) * pcs.entry (m + b + u) j) by
        funext u; rw [Nat.add_assoc]]
      ring
    · rw [decide_eq_decide]
      omega
    · push_cast
      ring

/-- The loop, characterized: from in-range state `(L, m)` with positive block
size, matching shapes and enough fuel, it terminates and yields exactly
`expectedYields`. -/
theorem reconLoop_spec (data pcs : Mat) (b : Nat) (hb : 1 ≤ b)
    (hC : pcs.rows = data.cols) :
    ∀ (fuel m : Nat) (L : Mat), m < data.cols → data.cols - m ≤ fuel →
      reconLoop data pcs (b : Int) fuel L (m : Int) =
        (expectedYields data pcs b L m, true)
  | 0, m, L, hm, hf => absurd hf (by omega)
  | fuel + 1, m, L, hm, hf => by
    simp only [reconLoop]
    have hcast : (m : Int) + (b : Int) = ((m + b : Nat) : Int) := by push_cast; ring
    by_cases h : m + b < data.cols
    · rw [if_pos (by exact_mod_cast (by omega : (m + b : Int) < (data.cols : Int)))]
      rw [hcast]
      rw [reconLoop_spec data pcs b hb hC fuel (m + b) _ h (by omega)]
      rw [expectedYields_cons data pcs b L m hb h hC]
    · rw [if_neg (by
        rw [hcast]
        exact_mod_cast (by omega : ¬ ((m + b : Nat) : Int) < (data.cols : Int)))]
      rw [expectedYields_base data pcs b L m hb hm (by omega) hC]

/-- With a negative block size the loop guard `m + by_n < c` holds at every
iteration (since `m` only ever decreases from 0), so the loop never exits:
every unit of fuel produces one more yield and the generator is never
exhausted. -/
theorem reconLoop_neg (data pcs : Mat) (by_n : Int) (hb : by_n ≤ -1) :
    ∀ (fuel : Nat) (L : Mat) (m : Int), m ≤ 0 →
      (reconLoop data pcs by_n fuel L m).2 = false ∧
      (reconLoop data pcs by_n fuel L m).1.length = fuel
  | 0, _, _, _ => ⟨rfl, rfl⟩
  | fuel + 1, L, m, hm => by
    simp only [reconLoop]
    have hc0 : (0 : Int) ≤ (data.cols : Int) := Int.natCast_nonneg _
    rw [if_pos (by omega : m + by_n < (data.cols : Int))]
    have ih := reconLoop_neg data pcs by_n hb fuel
      (L.add ((colSlice data m (m + by_n)).dot (rowSlice pcs m (m + by_n))))
      (m + by_n) (by omega)
    exact ⟨ih.1, by simp [ih.2]⟩

/-- Top-level characterization of driving the generator with a positive block
size `b`, matching shapes, at least one data column and enough fuel. -/
theorem run_spec (data pcs L0 : Mat) (b fuel : Nat) (hb : 1 ≤ b)
    (hC : pcs.rows = data.cols) (hc : 1 ≤ data.cols) (hf : data.cols ≤ fuel) :
    (data_reconstruction data pcs (b : Int)).run L0 fuel =
      .ok (expectedYields data pcs b L0 0, true) := by
  unfold data_reconstruction Gen.run
  dsimp only
  rw [if_neg (by exact_mod_cast (by omega : ¬ (b : Int) = 0)), if_pos hC]
  have h := reconLoop_spec data pcs b hb hC fuel 0 L0 (by omega) (by omega)
  rw [Nat.cast_zero] at h
  rw [h]

theorem expectedYields_getD (data pcs : Mat) (b : Nat) (L : Mat) (m k : Nat)
    (hk : k < (data.cols - m + b - 1) / b) :
    (expectedYields data pcs b L m).getD k dummyYield =
      ⟨⟨L.rows, L.cols, fun i j =>
        L.entry i j + rsum (fun u => data.entry i (m + u) * pcs.entry (m + u) j)
          (min ((k + 1) * b) (data.cols - m))⟩,
      decide (k + 1 < (data.cols - m + b - 1) / b),
      (m : Int) + (k : Int) * (b : Int)⟩ := by
  unfold expectedYields
  rw [List.getD_eq_getElem?_getD, List.getElem?_map, List.getElem?_range hk]
  rfl

theorem bufferAfter_expectedYields (data pcs : Mat) (b : Nat) (L : Mat)
    (m j : Nat) (hj : j + 1 < (data.cols - m + b - 1) / b) :
    bufferAfter L (expectedYields data pcs b L m) j =
      ((expectedYields data pcs b L m).getD j dummyYield).snap := by
  rw [expectedYields_getD data pcs b L m j (by omega)]
  unfold bufferAfter expectedYields
  rw [← List.map_take, List.take_range, Nat.min_eq_left (by omega),
    List.range_succ, List.map_append, List.foldl_append]
  simp only [List.map_cons, List.map_nil, List.foldl_cons, List.foldl_nil]
  rw [if_pos (by simpa using (by omega : j + 1 < (data.cols - m + b - 1) / b))]

/-- C2: for every data matrix with `c ≥ 1` columns, matching
`principal_components` and block size `b ≥ 1`, the generator produces a
finite sequence of exactly `⌈c/b⌉` yields (exhaustion within any fuel
`≥ c`): one per full block driven by the loop, plus the single final yield
folding in the tail (or a last full block when `b` divides `c`). -/
theorem C2_yield_count (data pcs L0 : Mat) (b fuel : Nat) (hb : 1 ≤ b)
    (hc : 1 ≤ data.cols) (hC : pcs.rows = data.cols) (hf : data.cols ≤ fuel) :
    runFinished (data_reconstruction data pcs (b : Int)) L0 fuel = true ∧
    (runYields (data_reconstruction data pcs (b : Int)) L0 fuel).length =
      (data.cols + b - 1) / b := by
  unfold runFinished runYields
  rw [run_spec data pcs L0 b fuel hb hC hc hf]
  refine ⟨rfl, ?_⟩
  show (expectedYields data pcs b L0 0).length = _
  rw [expectedYields_length, Nat.sub_zero]

theorem C2_yield_count_witness :
    1 ≤ 2 ∧ 1 ≤ (Mat.of [[1, 0, 2], [0, 1, 1]]).cols ∧
    (Mat.of [[1, 0], [0, 1], [1, 1]]).rows = (Mat.of [[1, 0, 2], [0, 1, 1]]).cols ∧
    (Mat.of [[1, 0, 2], [0, 1, 1]]).cols ≤ 3 ∧
    (runFinished (data_reconstruction (Mat.of [[1, 0, 2], [0, 1, 1]])
        (Mat.of [[1, 0], [0, 1], [1, 1]]) ((2 : Nat) : Int)) (Mat.zeros 2 2) 3 =
      true ∧
    (runYields (data_reconstruction (Mat.of [[1, 0, 2], [0, 1, 1]])
        (Mat.of [[1, 0], [0, 1], [1, 1]]) ((2 : Nat) : Int))
        (Mat.zeros 2 2) 3).length =
      ((Mat.of [[1, 0, 2], [0, 1, 1]]).cols + 2 - 1) / 2) :=
  ⟨by decide, by decide, by decide, by decide,
    C2_yield_count (Mat.of [[1, 0, 2], [0, 1, 1]]) (Mat.of [[1, 0], [0, 1], [1, 1]])
      (Mat.zeros 2 2) 2 3 (by decide) (by decide) (by decide) (by decide)⟩

/-- C3 (counterexample): with `data = [[1]]`, `principal_components = [[1]]`
and `block_size = 1` — one column, so `c = 1` — the single (final) yield
carries index 0, not `c = 1`; the claim that the final yielded integer
equals `c` (all columns consumed) is false. -/
theorem C3_counterexample :
    (runYields (data_reconstruction (Mat.of [[1]]) (Mat.of [[1]]) ((1 : Nat) : Int))
      (Mat.zeros 1 1) 1).map Yield.idx = [0] ∧
    runFinished (data_reconstruction (Mat.of [[1]]) (Mat.of [[1]]) ((1 : Nat) : Int))
      (Mat.zeros 1 1) 1 = true ∧
    (Mat.of [[1]]).cols = 1 ∧ (0 : Int) ≠ (1 : Int) :=
  ⟨by decide, by decide, by decide, by decide⟩

/-- C3 (amended): the integer yielded with the `k`-th snapshot is `k·b` —
the zero-based offset of the first column of the block just folded in, i.e.
the number of columns consumed *before* that block — and the integer of the
final snapshot is `(⌈c/b⌉ - 1)·b = c - (size of the final block)`, not `c`. -/
theorem C3_yield_index_is_block_offset (data pcs L0 : Mat) (b fuel : Nat)
    (hb : 1 ≤ b) (hc : 1 ≤ data.cols) (hC : pcs.rows = data.cols)
    (hf : data.cols ≤ fuel) :
    (∀ k < (runYields (data_reconstruction data pcs (b : Int)) L0 fuel).length,
      ((runYields (data_reconstruction data pcs (b : Int)) L0 fuel).getD k
        dummyYield).idx = ((k * b : Nat) : Int)) ∧
    ((runYields (data_reconstruction data pcs (b : Int)) L0 fuel).getD
        ((runYields (data_reconstruction data pcs (b : Int)) L0 fuel).length - 1)
        dummyYield).idx =
      ((((data.cols + b - 1) / b - 1) * b : Nat) : Int) := by
  unfold runYields
  rw [run_spec data pcs L0 b fuel hb hC hc hf]
  show (∀ k < (expectedYields data pcs b L0 0).length, _) ∧ _
  have hlen : (expectedYields data pcs b L0 0).length =
      (data.cols - 0 + b - 1) / b := expectedYields_length data pcs b L0 0
  have hpos : 1 ≤ (data.cols - 0 + b - 1) / b :=
    (Nat.one_le_div_iff (by omega)).mpr (by omega)
  constructor
  · intro k hk
    rw [hlen] at hk
    rw [expectedYields_getD data pcs b L0 0 k hk]
    push_cast
    ring
  · show ((expectedYields data pcs b L0 0).getD _ dummyYield).idx = _
    rw [hlen, expectedYields_getD data pcs b L0 0 _
      (Nat.sub_lt (by omega) Nat.one_pos)]
    rw [show data.cols - 0 + b - 1 = data.cols + b - 1 by omega]
    push_cast
    ring

theorem C3_yield_index_is_block_offset_witness :
    1 ≤ 1 ∧ 1 ≤ (Mat.of [[1]]).cols ∧ (Mat.of [[1]]).rows = (Mat.of [[1]]).cols ∧
    (Mat.of [[1]]).cols ≤ 1 ∧
    ((∀ k < (runYields (data_reconstruction (Mat.of [[1]]) (Mat.of [[1]])
        ((1 : Nat) : Int)) (Mat.zeros 1 1) 1).length,
      ((runYields (data_reconstruction (Mat.of [[1]]) (Mat.of [[1]])
        ((1 : Nat) : Int)) (Mat.zeros 1 1) 1).getD k dummyYield).idx =
        ((k * 1 : Nat) : Int)) ∧
    ((runYields (data_reconstruction (Mat.of [[1]]) (Mat.of [[1]])
        ((1 : Nat) : Int)) (Mat.zeros 1 1) 1).getD
        ((runYields (data_reconstruction (Mat.of [[1]]) (Mat.of [[1]])
          ((1 : Nat) : Int)) (Mat.zeros 1 1) 1).length - 1) dummyYield).idx =
      ((((Mat.of [[1]]).cols + 1 - 1) / 1 - 1) * 1 : Nat)) :=
  ⟨by decide, by decide, by decide, by decide,
    C3_yield_index_is_block_offset (Mat.of [[1]]) (Mat.of [[1]]) (Mat.zeros 1 1)
      1 1 (by decide) (by decide) (by decide) (by decide)⟩

/-- C4 (counterexample): with `block_size = -1 < 1` the generator does not
fail at all — no error is raised, and requesting two elements yields two
snapshots (and the sequence is not even exhausted), contradicting the claim
that any `block_size < 1` fails with InvalidArgument before any computation
and that no snapshot is produced. -/
theorem C4_counterexample :
    runError (data_reconstruction (Mat.of [[1]]) (Mat.of [[1]]) (-1))
      (Mat.zeros 1 1) 2 = none ∧
    (runYields (data_reconstruction (Mat.of [[1]]) (Mat.of [[1]]) (-1))
      (Mat.zeros 1 1) 2).length = 2 ∧
    runFinished (data_reconstruction (Mat.of [[1]]) (Mat.of [[1]]) (-1))
      (Mat.zeros 1 1) 2 = false :=
  ⟨by decide, by decide, by decide⟩

/-- C4 (amended): there is no `block_size` validation.  `block_size = 0`
fails only with a ZeroDivisionError from `c // by_n` — raised at the first
element request, not at the call — before any snapshot is produced; a
negative `block_size` raises nothing: with matching shapes every element
request succeeds, one snapshot per unit of fuel, and the generator is never
exhausted. -/
theorem C4_no_invalid_argument_check (data pcs L0 : Mat) (by_n : Int)
    (fuel : Nat) :
    (by_n = 0 →
      (data_reconstruction data pcs by_n).run L0 fuel =
        .error .zeroDivisionError ∧
      runYields (data_reconstruction data pcs by_n) L0 fuel = []) ∧
    (by_n ≤ -1 → pcs.rows = data.cols →
      runError (data_reconstruction data pcs by_n) L0 fuel = none ∧
      (runYields (data_reconstruction data pcs by_n) L0 fuel).length = fuel ∧
      runFinished (data_reconstruction data pcs by_n) L0 fuel = false) := by
  constructor
  · intro h0
    have h : (data_reconstruction data pcs by_n).run L0 fuel =
        .error .zeroDivisionError := by
      unfold data_reconstruction Gen.run
      dsimp only
      rw [if_pos h0]
    exact ⟨h, by unfold runYields; rw [h]⟩
  · intro hb hC
    have hok : (data_reconstruction data pcs by_n).run L0 fuel =
        .ok (reconLoop data pcs by_n fuel L0 0) := by
      unfold data_reconstruction Gen.run
      dsimp only
      rw [if_neg (by omega), if_pos hC]
    have h := reconLoop_neg data pcs by_n hb fuel L0 0 (by omega)
    unfold runError runYields runFinished
    rw [hok]
    exact ⟨rfl, h.2, h.1⟩

theorem C4_no_invalid_argument_check_witness :
    ((data_reconstruction (Mat.of [[1]]) (Mat.of [[1]]) 0).run (Mat.zeros 1 1) 2 =
        .error .zeroDivisionError ∧
      runYields (data_reconstruction (Mat.of [[1]]) (Mat.of [[1]]) 0)
        (Mat.zeros 1 1) 2 = []) ∧
    (runError (data_reconstruction (Mat.of [[1]]) (Mat.of [[1]]) (-1))
        (Mat.zeros 1 1) 3 = none ∧
      (runYields (data_reconstruction (Mat.of [[1]]) (Mat.of [[1]]) (-1))
        (Mat.zeros 1 1) 3).length = 3 ∧
      runFinished (data_reconstruction (Mat.of [[1]]) (Mat.of [[1]]) (-1))
        (Mat.zeros 1 1) 3 = false) :=
  ⟨(C4_no_invalid_argument_check (Mat.of [[1]]) (Mat.of [[1]]) (Mat.zeros 1 1)
      0 2).1 rfl,
    (C4_no_invalid_argument_check (Mat.of [[1]]) (Mat.of [[1]]) (Mat.zeros 1 1)
      (-1) 3).2 (by decide) (by decide)⟩

/-- C5: whenever `principal_components.rows ≠ data.cols` (and the block size
is nonzero, so the earlier `c // by_n` does not fail first), `assert C == c`
fails — the ShapeMismatch of the specification surfaces as this assertion
failure — before the loop runs: the element request errors and no snapshot
is produced. -/
theorem C5_shape_mismatch_fails (data pcs L0 : Mat) (by_n : Int) (fuel : Nat)
    (hb : by_n ≠ 0) (hC : pcs.rows ≠ data.cols) :
    (data_reconstruction data pcs by_n).run L0 fuel = .error .assertionError ∧
    runYields (data_reconstruction data pcs by_n) L0 fuel = [] := by
  have h : (data_reconstruction data pcs by_n).run L0 fuel =
      .error .assertionError := by
    unfold data_reconstruction Gen.run
    dsimp only
    rw [if_neg hb, if_neg hC]
  exact ⟨h, by unfold runYields; rw [h]⟩

theorem C5_shape_mismatch_fails_witness :
    ((1 : Int) ≠ 0 ∧
      (Mat.of [[1, 0], [0, 1], [1, 1], [0, 0]]).rows ≠
        (Mat.of [[1, 0, 2], [0, 1, 1]]).cols) ∧
    ((data_reconstruction (Mat.of [[1, 0, 2], [0, 1, 1]])
        (Mat.of [[1, 0], [0, 1], [1, 1], [0, 0]]) 1).run (Mat.zeros 2 2) 4 =
      .error .assertionError ∧
    runYields (data_reconstruction (Mat.of [[1, 0, 2], [0, 1, 1]])
        (Mat.of [[1, 0], [0, 1], [1, 1], [0, 0]]) 1) (Mat.zeros 2 2) 4 = []) :=
  ⟨⟨by decide, by decide⟩,
    C5_shape_mismatch_fails (Mat.of [[1, 0, 2], [0, 1, 1]])
      (Mat.of [[1, 0], [0, 1], [1, 1], [0, 0]]) (Mat.zeros 2 2) 1 4
      (by decide) (by decide)⟩

/-- C9: the call `data_reconstruction(data, principal_components, by_n)`
itself only packages the arguments into a generator object — it is total and
raises nothing for any arguments whatsoever.  All validation runs at the
first element request, in source order: the floor division `c // by_n`
first (so `by_n = 0` gives ZeroDivisionError even when shapes also
mismatch), then `assert C == c` (so a shape mismatch surfaces as an
assertion failure at the first element request, not at the call); with
`by_n ≠ 0` and matching shapes no error is raised at all. -/
theorem C9_lazy_validation (data pcs L0 : Mat) (by_n : Int) (fuel : Nat) :
    data_reconstruction data pcs by_n = Gen.mk data pcs by_n ∧
    (by_n = 0 →
      (data_reconstruction data pcs by_n).run L0 fuel =
        .error .zeroDivisionError) ∧
    (by_n ≠ 0 → pcs.rows ≠ data.cols →
      (data_reconstruction data pcs by_n).run L0 fuel =
        .error .assertionError) ∧
    (by_n ≠ 0 → pcs.rows = data.cols →
      ∃ p, (data_reconstruction data pcs by_n).run L0 fuel = .ok p) := by
  refine ⟨rfl, ?_, ?_, ?_⟩
  · intro h0
    unfold data_reconstruction Gen.run
    dsimp only
    rw [if_pos h0]
  · intro hb hC
    unfold data_reconstruction Gen.run
    dsimp only
    rw [if_neg hb, if_neg hC]
  · intro hb hC
    refine ⟨reconLoop data pcs by_n fuel L0 0, ?_⟩
    unfold data_reconstruction Gen.run
    dsimp only
    rw [if_neg hb, if_pos hC]

theorem C9_lazy_validation_witness :
    ((data_reconstruction (Mat.of [[1]]) (Mat.of [[1], [2]]) 0).run
        (Mat.zeros 1 1) 2 = .error .zeroDivisionError) ∧
    ((data_reconstruction (Mat.of [[1]]) (Mat.of [[1], [2]]) 1).run
        (Mat.zeros 1 1) 2 = .error .assertionError) ∧
    (∃ p, (data_reconstruction (Mat.of [[1]]) (Mat.of [[1]]) 1).run
        (Mat.zeros 1 1) 2 = .ok p) :=
  ⟨(C9_lazy_validation (Mat.of [[1]]) (Mat.of [[1], [2]]) (Mat.zeros 1 1)
      0 2).2.1 rfl,
    (C9_lazy_validation (Mat.of [[1]]) (Mat.of [[1], [2]]) (Mat.zeros 1 1)
      1 2).2.2.1 (by decide) (by decide),
    (C9_lazy_validation (Mat.of [[1]]) (Mat.of [[1]]) (Mat.zeros 1 1)
      1 2).2.2.2 (by decide) (by decide)⟩

/-- C10: with matching shapes and any negative `by_n ≤ -1`, the generator is
never exhausted: `m` starts at 0 and only decreases, so the loop guard
`m + by_n < c` holds at every iteration and every element request succeeds —
`fuel` requests produce exactly `fuel` (matrix, index) pairs with the
generator still unfinished. -/
theorem C10_negative_block_never_exhausts (data pcs L0 : Mat) (by_n : Int)
    (fuel : Nat) (hb : by_n ≤ -1) (hC : pcs.rows = data.cols) :
    runFinished (data_reconstruction data pcs by_n) L0 fuel = false ∧
    (runYields (data_reconstruction data pcs by_n) L0 fuel).length = fuel := by
  have hok : (data_reconstruction data pcs by_n).run L0 fuel =
      .ok (reconLoop data pcs by_n fuel L0 0) := by
    unfold data_reconstruction Gen.run
    dsimp only
    rw [if_neg (by omega), if_pos hC]
  have h := reconLoop_neg data pcs by_n hb fuel L0 0 (by omega)
  unfold runFinished runYields
  rw [hok]
  exact ⟨h.1, h.2⟩

theorem C10_negative_block_never_exhausts_witness :
    ((-1 : Int) ≤ -1 ∧ (Mat.of [[1]]).rows = (Mat.of [[1]]).cols) ∧
    (runFinished (data_reconstruction (Mat.of [[1]]) (Mat.of [[1]]) (-1))
        (Mat.zeros 1 1) 3 = false ∧
      (runYields (data_reconstruction (Mat.of [[1]]) (Mat.of [[1]]) (-1))
        (Mat.zeros 1 1) 3).length = 3) :=
  ⟨⟨by decide, by decide⟩,
    C10_negative_block_never_exhausts (Mat.of [[1]]) (Mat.of [[1]])
      (Mat.zeros 1 1) (-1) 3 (by decide) (by decide)⟩

/-- C7: with `block_size = 1`, matching shapes and `c ≥ 1` columns, exactly
`c` elements are yielded, and each yielded matrix differs from the previous
one by exactly one rank-1 update: entrywise, snapshot `k+1` is snapshot `k`
plus `data[:, k+1] ⊗ principal_components[k+1, :]` (the outer product of one
column of `data` with the corresponding row of `principal_components`). -/
theorem C7_rank_one_updates (data pcs L0 : Mat) (fuel : Nat)
    (hc : 1 ≤ data.cols) (hC : pcs.rows = data.cols) (hf : data.cols ≤ fuel) :
    (runYields (data_reconstruction data pcs ((1 : Nat) : Int)) L0 fuel).length =
      data.cols ∧
    ∀ k, k + 1 < data.cols → ∀ i j,
      ((runYields (data_reconstruction data pcs ((1 : Nat) : Int)) L0 fuel).getD
        (k + 1) dummyYield).snap.entry i j =
      ((runYields (data_reconstruction data pcs ((1 : Nat) : Int)) L0 fuel).getD
        k dummyYield).snap.entry i j +
        data.entry i (k + 1) * pcs.entry (k + 1) j := by
  unfold runYields
  rw [run_spec data pcs L0 1 fuel (le_refl 1) hC hc hf]
  show (expectedYields data pcs 1 L0 0).length = data.cols ∧ _
  constructor
  · rw [expectedYields_length]
    omega
  · intro k hk i j
    rw [expectedYields_getD data pcs 1 L0 0 (k + 1) (by omega),
      expectedYields_getD data pcs 1 L0 0 k (by omega)]
    dsimp only
    rw [show min ((k + 1 + 1) * 1) (data.cols - 0) = k + 2 by omega,
      show min ((k + 1) * 1) (data.cols - 0) = k + 1 by omega,
      show rsum (fun u => data.entry i (0 + u) * pcs.entry (0 + u) j) (k + 2) =
        rsum (fun u => data.entry i (0 + u) * pcs.entry (0 + u) j) (k + 1) +
          data.entry i (0 + (k + 1)) * pcs.entry (0 + (k + 1)) j from rfl]
    simp only [Nat.zero_add]
    ring

theorem C7_rank_one_updates_witness :
    1 ≤ (Mat.of [[1, 0, 2], [0, 1, 1]]).cols ∧
    (Mat.of [[1, 0], [0, 1], [1, 1]]).rows = (Mat.of [[1, 0, 2], [0, 1, 1]]).cols ∧
    (Mat.of [[1, 0, 2], [0, 1, 1]]).cols ≤ 3 ∧
    ((runYields (data_reconstruction (Mat.of [[1, 0, 2], [0, 1, 1]])
        (Mat.of [[1, 0], [0, 1], [1, 1]]) ((1 : Nat) : Int))
        (Mat.zeros 2 2) 3).length = (Mat.of [[1, 0, 2], [0, 1, 1]]).cols ∧
    ∀ k, k + 1 < (Mat.of [[1, 0, 2], [0, 1, 1]]).cols → ∀ i j,
      ((runYields (data_reconstruction (Mat.of [[1, 0, 2], [0, 1, 1]])
          (Mat.of [[1, 0], [0, 1], [1, 1]]) ((1 : Nat) : Int))
          (Mat.zeros 2 2) 3).getD (k + 1) dummyYield).snap.entry i j =
      ((runYields (data_reconstruction (Mat.of [[1, 0, 2], [0, 1, 1]])
          (Mat.of [[1, 0], [0, 1], [1, 1]]) ((1 : Nat) : Int))
          (Mat.zeros 2 2) 3).getD k dummyYield).snap.entry i j +
        (Mat.of [[1, 0, 2], [0, 1, 1]]).entry i (k + 1) *
          (Mat.of [[1, 0], [0, 1], [1, 1]]).entry (k + 1) j) :=
  ⟨by decide, by decide, by decide,
    C7_rank_one_updates (Mat.of [[1, 0, 2], [0, 1, 1]])
      (Mat.of [[1, 0], [0, 1], [1, 1]]) (Mat.zeros 2 2) 3
      (by decide) (by decide) (by decide)⟩

/-- C6 (counterexample): snapshots are not copies.  On the concrete run with
`data = [[1,0,2],[0,1,1]]`, `principal_components = [[1,0],[0,1],[1,1]]`,
`block_size = 1` and a zeroed accumulator, the snapshot yielded at step 0 had
entry (1,1) equal to 0 at yield time, but observing that same yielded object
after step 1 has been computed reads 1: the generator mutated it in place,
contradicting the claim that earlier snapshots are unchanged by later
steps. -/
theorem C6_counterexample :
    (observedAt (Mat.zeros 2 2)
      (runYields (data_reconstruction (Mat.of [[1, 0, 2], [0, 1, 1]])
        (Mat.of [[1, 0], [0, 1], [1, 1]]) 1) (Mat.zeros 2 2) 3) 0 1).entry 1 1 =
      1 ∧
    ((runYields (data_reconstruction (Mat.of [[1, 0, 2], [0, 1, 1]])
        (Mat.of [[1, 0], [0, 1], [1, 1]]) 1) (Mat.zeros 2 2) 3).getD 0
        dummyYield).snap.entry 1 1 = 0 ∧
    ((runYields (data_reconstruction (Mat.of [[1, 0, 2], [0, 1, 1]])
        (Mat.of [[1, 0], [0, 1], [1, 1]]) 1) (Mat.zeros 2 2) 3).getD 0
        dummyYield).live = true ∧
    (1 : ℚ) ≠ 0 := by
  refine ⟨?_, ?_, by decide, by norm_num⟩ <;>
    norm_num [observedAt, bufferAfter, runYields, Gen.run, data_reconstruction,
      reconLoop, Mat.add, Mat.dot, Mat.of, colSlice, rowSlice, pyIdx, rsum,
      Mat.zeros, dummyYield, Int.toNat, List.take, List.foldl, List.getD]

/-- C6 (amended): in-loop yields return the live accumulator object, not
copies: whenever steps `i ≤ j` are both in-loop yields (every yield but the
last), the object yielded at step `i` observed after step `j` shows the
step-`j` accumulator contents — the step-`j` snapshot — rather than its own
yield-time value; only the final yield is a fresh array (`live = false`). -/
theorem C6_snapshots_alias_accumulator (data pcs L0 : Mat) (b fuel : Nat)
    (hb : 1 ≤ b) (hc : 1 ≤ data.cols) (hC : pcs.rows = data.cols)
    (hf : data.cols ≤ fuel) :
    (∀ i j : Nat, i ≤ j →
      j + 1 < (runYields (data_reconstruction data pcs (b : Int)) L0 fuel).length →
      ((runYields (data_reconstruction data pcs (b : Int)) L0 fuel).getD i
        dummyYield).live = true ∧
      observedAt L0 (runYields (data_reconstruction data pcs (b : Int)) L0 fuel)
        i j =
      ((runYields (data_reconstruction data pcs (b : Int)) L0 fuel).getD j
        dummyYield).snap) ∧
    ((runYields (data_reconstruction data pcs (b : Int)) L0 fuel).getD
      ((runYields (data_reconstruction data pcs (b : Int)) L0 fuel).length - 1)
      dummyYield).live = false := by
  unfold runYields
  rw [run_spec data pcs L0 b fuel hb hC hc hf]
  show (∀ i j : Nat, i ≤ j → j + 1 < (expectedYields data pcs b L0 0).length →
      _ ∧ _) ∧ _
  have hlen := expectedYields_length data pcs b L0 0
  have hpos : 1 ≤ (data.cols - 0 + b - 1) / b :=
    (Nat.one_le_div_iff (by omega)).mpr (by omega)
  constructor
  · intro i j hij hj
    rw [hlen] at hj
    have hlive : ((expectedYields data pcs b L0 0).getD i dummyYield).live =
        true := by
      rw [expectedYields_getD data pcs b L0 0 i (by omega)]
      simp only [decide_eq_true_eq]
      omega
    refine ⟨hlive, ?_⟩
    unfold observedAt
    rw [hlive, if_pos rfl]
    exact bufferAfter_expectedYields data pcs b L0 0 j hj
  · rw [hlen, expectedYields_getD data pcs b L0 0 _
      (Nat.sub_lt (by omega) Nat.one_pos)]
    simp only [decide_eq_false_iff_not]
    generalize (data.cols - 0 + b - 1) / b = q at hpos ⊢
    omega

theorem C6_snapshots_alias_accumulator_witness :
    1 ≤ 1 ∧ 1 ≤ (Mat.of [[1, 0, 2], [0, 1, 1]]).cols ∧
    (Mat.of [[1, 0], [0, 1], [1, 1]]).rows = (Mat.of [[1, 0, 2], [0, 1, 1]]).cols ∧
    (Mat.of [[1, 0, 2], [0, 1, 1]]).cols ≤ 3 ∧
    ((∀ i j : Nat, i ≤ j →
      j + 1 < (runYields (data_reconstruction (Mat.of [[1, 0, 2], [0, 1, 1]])
        (Mat.of [[1, 0], [0, 1], [1, 1]]) ((1 : Nat) : Int))
        (Mat.zeros 2 2) 3).length →
      ((runYields (data_reconstruction (Mat.of [[1, 0, 2], [0, 1, 1]])
        (Mat.of [[1, 0], [0, 1], [1, 1]]) ((1 : Nat) : Int))
        (Mat.zeros 2 2) 3).getD i dummyYield).live = true ∧
      observedAt (Mat.zeros 2 2)
        (runYields (data_reconstruction (Mat.of [[1, 0, 2], [0, 1, 1]])
          (Mat.of [[1, 0], [0, 1], [1, 1]]) ((1 : Nat) : Int))
          (Mat.zeros 2 2) 3) i j =
      ((runYields (data_reconstruction (Mat.of [[1, 0, 2], [0, 1, 1]])
        (Mat.of [[1, 0], [0, 1], [1, 1]]) ((1 : Nat) : Int))
        (Mat.zeros 2 2) 3).getD j dummyYield).snap) ∧
    ((runYields (data_reconstruction (Mat.of [[1, 0, 2], [0, 1, 1]])
        (Mat.of [[1, 0], [0, 1], [1, 1]]) ((1 : Nat) : Int))
        (Mat.zeros 2 2) 3).getD
      ((runYields (data_reconstruction (Mat.of [[1, 0, 2], [0, 1, 1]])
        (Mat.of [[1, 0], [0, 1], [1, 1]]) ((1 : Nat) : Int))
        (Mat.zeros 2 2) 3).length - 1) dummyYield).live = false) :=
  ⟨by decide, by decide, by decide, by decide,
    C6_snapshots_alias_accumulator (Mat.of [[1, 0, 2], [0, 1, 1]])
      (Mat.of [[1, 0], [0, 1], [1, 1]]) (Mat.zeros 2 2) 1 3
      (by decide) (by decide) (by decide) (by decide)⟩

/-- C1: the accumulator is *not* zero-initialized — `np.empty((n,N))`
allocates uninitialized memory.  With `data = [[1]]`,
`principal_components = [[1]]`, `block_size = 1`, if the uninitialized
accumulator happens to contain `[[5]]`, the (final) snapshot reads `[[6]]`
instead of the product `[[1]]`; the snapshots equal the partial products
(here, the full product, third conjunct) only when the accumulator starts
at zero (second conjunct), which is what the surrounding notebook's own
description of the generator assumes. -/
theorem C1_accumulator_not_zero_initialized :
    ((runYields (data_reconstruction (Mat.of [[1]]) (Mat.of [[1]]) 1)
        (Mat.of [[5]]) 1).getD 0 dummyYield).snap.entry 0 0 = 6 ∧
    ((runYields (data_reconstruction (Mat.of [[1]]) (Mat.of [[1]]) 1)
        (Mat.zeros 1 1) 1).getD 0 dummyYield).snap.entry 0 0 = 1 ∧
    ((Mat.of [[1]]).dot (Mat.of [[1]])).entry 0 0 = 1 ∧
    (6 : ℚ) ≠ 1 := by
  refine ⟨?_, ?_, ?_, by norm_num⟩ <;>
    norm_num [runYields, Gen.run, data_reconstruction, reconLoop, Mat.add,
      Mat.dot, Mat.of, colSlice, rowSlice, pyIdx, rsum, Mat.zeros, dummyYield,
      Int.toNat, List.getD]

set_option maxHeartbeats 2000000 in
/-- C8: the specification's concrete scenario, evaluated.  With the intended
zero-initialized accumulator the run yields exactly three pairs —
`([[1,0],[0,0]], 0)`, `([[1,0],[0,1]], 1)`, `([[3,2],[1,2]], 2)` — with the
last matrix equal to the direct full product (conjuncts 1–7).  But the code
uses `np.empty`, not zeros: if the uninitialized accumulator contains
`[[5,5],[5,5]]`, already the first snapshot reads 6 at entry (0,0) instead
of 1 (conjuncts 8–9), so the scenario holds only under the zero
initialization the code fails to perform. -/
theorem C8_concrete_scenario :
    (runYields (data_reconstruction (Mat.of [[1, 0, 2], [0, 1, 1]])
      (Mat.of [[1, 0], [0, 1], [1, 1]]) 1) (Mat.zeros 2 2) 3).length = 3 ∧
    runFinished (data_reconstruction (Mat.of [[1, 0, 2], [0, 1, 1]])
      (Mat.of [[1, 0], [0, 1], [1, 1]]) 1) (Mat.zeros 2 2) 3 = true ∧
    (runYields (data_reconstruction (Mat.of [[1, 0, 2], [0, 1, 1]])
      (Mat.of [[1, 0], [0, 1], [1, 1]]) 1) (Mat.zeros 2 2) 3).map Yield.idx =
      [0, 1, 2] ∧
    Mat.Eq ((runYields (data_reconstruction (Mat.of [[1, 0, 2], [0, 1, 1]])
      (Mat.of [[1, 0], [0, 1], [1, 1]]) 1) (Mat.zeros 2 2) 3).getD 0
      dummyYield).snap (Mat.of [[1, 0], [0, 0]]) ∧
    Mat.Eq ((runYields (data_reconstruction (Mat.of [[1, 0, 2], [0, 1, 1]])
      (Mat.of [[1, 0], [0, 1], [1, 1]]) 1) (Mat.zeros 2 2) 3).getD 1
      dummyYield).snap (Mat.of [[1, 0], [0, 1]]) ∧
    Mat.Eq ((runYields (data_reconstruction (Mat.of [[1, 0, 2], [0, 1, 1]])
      (Mat.of [[1, 0], [0, 1], [1, 1]]) 1) (Mat.zeros 2 2) 3).getD 2
      dummyYield).snap (Mat.of [[3, 2], [1, 2]]) ∧
    Mat.Eq ((Mat.of [[1, 0, 2], [0, 1, 1]]).dot
      (Mat.of [[1, 0], [0, 1], [1, 1]])) (Mat.of [[3, 2], [1, 2]]) ∧
    ((runYields (data_reconstruction (Mat.of [[1, 0, 2], [0, 1, 1]])
      (Mat.of [[1, 0], [0, 1], [1, 1]]) 1) (Mat.of [[5, 5], [5, 5]]) 3).getD 0
      dummyYield).snap.entry 0 0 = 6 ∧
    (6 : ℚ) ≠ 1 := by
  refine ⟨by decide, by decide, by decide, ?_, ?_, ?_, ?_, ?_, by norm_num⟩
  · refine ⟨by decide, by decide, ?_⟩
    rw [show ((runYields (data_reconstruction (Mat.of [[1, 0, 2], [0, 1, 1]])
        (Mat.of [[1, 0], [0, 1], [1, 1]]) 1) (Mat.zeros 2 2) 3).getD 0
        dummyYield).snap.rows = 2 from by decide,
      show ((runYields (data_reconstruction (Mat.of [[1, 0, 2], [0, 1, 1]])
        (Mat.of [[1, 0], [0, 1], [1, 1]]) 1) (Mat.zeros 2 2) 3).getD 0
        dummyYield).snap.cols = 2 from by decide]
    intro i hi j hj
    interval_cases i <;> interval_cases j <;>
      norm_num [runYields, Gen.run, data_reconstruction, reconLoop, Mat.add,
        Mat.dot, Mat.of, colSlice, rowSlice, pyIdx, rsum, Mat.zeros, dummyYield,
        Int.toNat, List.getD]
  · refine ⟨by decide, by decide, ?_⟩
    rw [show ((runYields (data_reconstruction (Mat.of [[1, 0, 2], [0, 1, 1]])
        (Mat.of [[1, 0], [0, 1], [1, 1]]) 1) (Mat.zeros 2 2) 3).getD 1
        dummyYield).snap.rows = 2 from by decide,
      show ((runYields (data_reconstruction (Mat.of [[1, 0, 2], [0, 1, 1]])
        (Mat.of [[1, 0], [0, 1], [1, 1]]) 1) (Mat.zeros 2 2) 3).getD 1
        dummyYield).snap.cols = 2 from by decide]
    intro i hi j hj
    interval_cases i <;> interval_cases j <;>
      norm_num [runYields, Gen.run, data_reconstruction, reconLoop, Mat.add,
        Mat.dot, Mat.of, colSlice, rowSlice, pyIdx, rsum, Mat.zeros, dummyYield,
        Int.toNat, List.getD]
  · refine ⟨by decide, by decide, ?_⟩
    rw [show ((runYields (data_reconstruction (Mat.of [[1, 0, 2], [0, 1, 1]])
        (Mat.of [[1, 0], [0, 1], [1, 1]]) 1) (Mat.zeros 2 2) 3).getD 2
        dummyYield).snap.rows = 2 from by decide,
      show ((runYields (data_reconstruction (Mat.of [[1, 0, 2], [0, 1, 1]])
        (Mat.of [[1, 0], [0, 1], [1, 1]]) 1) (Mat.zeros 2 2) 3).getD 2
        dummyYield).snap.cols = 2 from by decide]
    intro i hi j hj
    interval_cases i <;> interval_cases j <;>
      norm_num [runYields, Gen.run, data_reconstruction, reconLoop, Mat.add,
        Mat.dot, Mat.of, colSlice, rowSlice, pyIdx, rsum, Mat.zeros, dummyYield,
        Int.toNat, List.getD]
  · refine ⟨by decide, by decide, ?_⟩
    rw [show ((Mat.of [[1, 0, 2], [0, 1, 1]]).dot
        (Mat.of [[1, 0], [0, 1], [1, 1]])).rows = 2 from by decide,
      show ((Mat.of [[1, 0, 2], [0, 1, 1]]).dot
        (Mat.of [[1, 0], [0, 1], [1, 1]])).cols = 2 from by decide]
    intro i hi j hj
    interval_cases i <;> interval_cases j <;>
      norm_num [Mat.dot, Mat.of, rsum]
  · norm_num [runYields, Gen.run, data_reconstruction, reconLoop, Mat.add,
      Mat.dot, Mat.of, colSlice, rowSlice, pyIdx, rsum, Mat.zeros, dummyYield,
      Int.toNat, List.getD]

end PCAVis
